import Mathlib

/-!
Verification of the service-policy reconciliation module
(plugins/modules/na_ontap_service_policy.py).

The module reconciles a named remote service-policy resource with a desired
state: it validates and normalizes its input parameters, looks the resource up
with a single GET, plans one of create / delete / modify / no-action, and in
non-check mode issues at most one mutating REST call (POST, PATCH or DELETE).

The embedding below translates the module code into pure Lean functions.
Stateful parts (the remote resource, the list of REST calls issued) are made
explicit: a run takes the remote record (at most one, per the uniqueness
invariant of the data model) and returns the report, the resulting remote
record, and the trace of requests issued.  Helper code of the collection that
lives outside the module file (the diff engine of netapp_module.py) is
modelled from the spec and marked as such in its doc comment.
-/

namespace ServicePolicy

/-- A parameter or body value: either a string or a list of strings
(the services list is the only list-valued attribute of this module). -/
inductive Value where
  | str : String → Value
  | list : List String → Value
deriving DecidableEq, Repr

/-- A REST request issued by the module, with its path and payload. -/
inductive Request where
  | get : String → List (String × String) → Request
  | post : String → List (String × Value) → Request
  | patch : String → List (String × Value) → Request
  | delete : String → Request
deriving DecidableEq, Repr

/-- The module parameters declared in the argument_spec of
NetAppOntapServicePolicy.__init__ (state defaults to "present"; name is
required; the rest default to absent, i.e. none). -/
structure Params where
  state : String := "present"
  name : String
  ipspace : Option String := none
  scope : Option String := none
  services : Option (List String) := none
  vserver : Option String := none
deriving DecidableEq, Repr

/-- The remote resource record as returned by the lookup with the fixed field
projection name,uuid,ipspace,services,svm. -/
structure PolicyRecord where
  name : String
  uuid : String
  ipspace : Option String := none
  services : List String := []
  svm : Option String := none
deriving DecidableEq, Repr

/-- The exit report built by apply: exit_json(changed=..., cd_action=...,
modify=..., scope=self.module.params).  Note the scope field carries the raw
module parameter map, exactly as in the source. -/
structure Report where
  changed : Bool
  cd_action : Option String
  modify : Option (List (String × Value))
  scope : Params
deriving DecidableEq, Repr

/-- Association lookup in a Python-dict-like key/value list (keys are unique
in every dict the module builds, so first match is the dict lookup). -/
def alookup {α : Type} : List (String × α) → String → Option α
  | [], _ => none
  | (k, v) :: t, key => if k = key then some v else alookup t key

/-- The 16 allowed values of the services parameter, from the argument_spec. -/
def serviceChoices : List String :=
  ["cluster_core", "intercluster_core", "management_core", "management_autosupport",
   "management_bgp", "management_ems", "management_https", "management_ssh",
   "management_portmap", "data_core", "data_nfs", "data_cifs", "data_flexcache",
   "data_iscsi", "data_s3_server", "no_service"]

/-- Choices enforcement by the argument parser for the argument_spec declared
in NetAppOntapServicePolicy.__init__: state in (present, absent), scope in
(cluster, svm), every services element drawn from serviceChoices. -/
def choices_ok (p : Params) : Bool :=
  (p.state == "present" || p.state == "absent") &&
  (match p.scope with
   | none => true
   | some s => s == "cluster" || s == "svm") &&
  (match p.services with
   | none => true
   | some l => l.all fun s => serviceChoices.contains s)

/-- The required_if rules declared in NetAppOntapServicePolicy.__init__:
scope=cluster requires ipspace; scope=svm requires vserver; vserver absent
requires ipspace.  A rule fires when the named parameter has the given value
and then demands that the listed parameters be present. -/
def required_if_ok (p : Params) : Bool :=
  (!(p.scope == some "cluster") || p.ipspace.isSome) &&
  (!(p.scope == some "svm") || p.vserver.isSome) &&
  (!p.vserver.isNone || p.ipspace.isSome)

/-- The required_one_of rule declared in NetAppOntapServicePolicy.__init__:
at least one of ipspace, vserver must be supplied. -/
def required_one_of_ok (p : Params) : Bool :=
  p.ipspace.isSome || p.vserver.isSome

/-- The services block of NetAppOntapServicePolicy.validate_inputs: when the
services list is truthy and contains no_service, any further element is a
fatal error and a pure no_service list normalizes to the empty list. -/
def validate_services (p : Params) : Except String Params :=
  match p.services with
  | some services =>
    if !services.isEmpty && services.contains "no_service" then
      if services.length > 1 then
        .error "Error: no other service can be present when no_service is specified."
      else
        .ok { p with services := some [] }
    else
      .ok p
  | none => .ok p

/-- The scope block of NetAppOntapServicePolicy.validate_inputs: an unset
scope is derived from vserver (cluster when vserver is absent, svm when it is
present); an explicit cluster scope forbids vserver and an explicit svm scope
requires it. -/
def validate_scope (p : Params) : Except String Params :=
  match p.scope with
  | none => .ok { p with scope := some (if p.vserver.isNone then "cluster" else "svm") }
  | some scope =>
    if scope == "cluster" && p.vserver.isSome then
      .error "Error: vserver cannot be set when scope cluster is specified."
    else if scope == "svm" && p.vserver.isNone then
      .error "Error: vserver cannot be None when scope svm is specified."
    else
      .ok p

/-- NetAppOntapServicePolicy.validate_inputs: the services block runs first,
then the scope block, each failure aborting the run. -/
def validate_inputs (p : Params) : Except String Params :=
  match validate_services p with
  | .error e => .error e
  | .ok p1 => validate_scope p1

/-- NetAppOntapServicePolicy.__init__, as the pure parameter pipeline: the
argument parser enforces the declared choices, required_if and
required_one_of constraints (failing the run before any network call when
violated), then validate_inputs runs.  The REST version gate sits between the
two in the source; it involves no module parameter and is a collaborator
concern, so it is not modelled. -/
def init_params (p : Params) : Except String Params :=
  if choices_ok p && required_if_ok p && required_one_of_ok p then
    validate_inputs p
  else
    .error "Error: invalid combination of module arguments."

/-- The query dict built by NetAppOntapServicePolicy.get_service_policy:
name and the fixed field projection, then scope=cluster when vserver is
absent, else svm.name, then ipspace.name when ipspace is present. -/
def get_service_policy_query (p : Params) : List (String × String) :=
  let query := [("name", p.name), ("fields", "name,uuid,ipspace,services,svm")]
  let query := query ++
    (match p.vserver with
     | none => [("scope", "cluster")]
     | some v => [("svm.name", v)])
  let query := query ++
    (match p.ipspace with
     | some i => [("ipspace.name", i)]
     | none => [])
  query

/-- Modelled from the spec: the remote lookup result.  The data model
invariant (spec section 3) says at most one record matches the query, so the
remote state is an optional record and get_service_policy returns it; the
0-or-1 cardinality check of rest_response_helpers (not under src) is made
unrepresentable by the type.  The query the GET carries is
get_service_policy_query, verified separately. -/
def get_service_policy (server : Option PolicyRecord) : Option PolicyRecord :=
  server

/-- The POST body built by NetAppOntapServicePolicy.create_service_policy:
name always, svm.name when vserver is set, then each of ipspace, scope,
services when its parameter value is not null. -/
def create_body (p : Params) : List (String × Value) :=
  let body := [("name", Value.str p.name)]
  let body := body ++
    (match p.vserver with
     | some v => [("svm.name", Value.str v)]
     | none => [])
  let body := body ++
    (match p.ipspace with
     | some i => [("ipspace", Value.str i)]
     | none => [])
  let body := body ++
    (match p.scope with
     | some s => [("scope", Value.str s)]
     | none => [])
  let body := body ++
    (match p.services with
     | some l => [("services", Value.list l)]
     | none => [])
  body

/-- Whether the first list of characters is a leading segment of the second
(Python string containment, step one). -/
def leadsChars : List Char → List Char → Bool
  | [], _ => true
  | _ :: _, [] => false
  | a :: as, b :: bs => a == b && leadsChars as bs

/-- Whether the first list of characters occurs contiguously inside the
second (Python string containment, step two). -/
def withinChars (k : List Char) : List Char → Bool
  | [] => k.isEmpty
  | b :: bs => leadsChars k (b :: bs) || withinChars k bs

/-- Python membership test on a string: key in s holds when key is a
contiguous substring of s.  The source writes `if key in ('services')`, and
('services') is the plain string "services", not a one-element tuple, so the
test performed is substring containment. -/
def pyInStr (key s : String) : Bool :=
  withinChars key.data s.data

/-- NetAppOntapServicePolicy.modify_service_policy: the body keeps the diff
entries whose key passes the `key in ('services')` test (substring
containment in "services", see pyInStr); any leftover entry is a fatal
"attributes not supported" defect, an empty body is a fatal "nothing to
change" defect, and otherwise the PATCH to the uuid-addressed endpoint is
issued with that body. -/
def modify_service_policy (current : PolicyRecord) (modify : List (String × Value)) :
    Except String Request :=
  let body := modify.filter fun kv => pyInStr kv.1 "services"
  let modify_copy := modify.filter fun kv => !pyInStr kv.1 "services"
  if modify_copy ≠ [] then
    .error "Error: attributes not supported in modify."
  else if body = [] then
    .error "Error: nothing to change - modify called with an empty diff."
  else
    .ok (Request.patch ("network/ip/service-policies/" ++ current.uuid) body)

/-- Modelled from the spec: NetAppModule.get_cd_action of
module_utils/netapp_module.py, which is not under src.  Spec section 4.3:
current absent and desired present gives create; current present and desired
absent gives delete; otherwise no create/delete action. -/
def get_cd_action (current : Option PolicyRecord) (state : String) : Option String :=
  match current with
  | none => if state == "present" then some "create" else none
  | some _ => if state == "absent" then some "delete" else none

/-- Modelled from the spec: NetAppModule.get_modified_attributes of
module_utils/netapp_module.py, which is not under src.  Spec section 4.3:
the attribute-level diff between current and desired restricted to mutable
fields; sections 4.4 and 8 identify services as the mutable field of this
resource, with the desired value reported when it differs from the current
one.  An absent current record yields the empty diff. -/
def get_modified_attributes (current : Option PolicyRecord) (p : Params) :
    List (String × Value) :=
  match current with
  | none => []
  | some c =>
    match p.services with
    | none => []
    | some svcs => if svcs == c.services then [] else [("services", Value.list svcs)]

/-- Python truthiness of the optional modify dict: None and the empty dict
are falsy. -/
def diffNonempty : Option (List (String × Value)) → Bool
  | none => false
  | some l => !l.isEmpty

/-- NetAppOntapServicePolicy.get_actions: look the resource up, ask the diff
engine for the create/delete decision, and compute the modify diff only when
that decision is null. -/
def get_actions (server : Option PolicyRecord) (p : Params) :
    Option String × Option (List (String × Value)) × Option PolicyRecord :=
  let current := get_service_policy server
  let cd_action := get_cd_action current p.state
  let modify :=
    if cd_action.isNone then some (get_modified_attributes current p) else none
  (cd_action, modify, current)

/-- Modelled from the spec: the remote service applying a POST as requested.
The server assigns the uuid (u); when the body carries no services list the
server picks its own default (d); the other attributes are taken from the
request. -/
def server_create (p : Params) (u : String) (d : List String) : PolicyRecord :=
  { name := p.name
    uuid := u
    ipspace := p.ipspace
    services := p.services.getD d
    svm := p.vserver }

/-- The body carried by a PATCH request (empty for any other request). -/
def patch_body : Request → List (String × Value)
  | .patch _ b => b
  | _ => []

/-- Modelled from the spec: the remote service applying a PATCH as requested,
replacing the services of the record with the services carried in the body. -/
def server_patch (c : PolicyRecord) (body : List (String × Value)) : PolicyRecord :=
  match alookup body "services" with
  | some (Value.list svcs) => { c with services := svcs }
  | _ => c

/-- The lookup request apply issues: a GET on the list endpoint with the
query built from the (validated) parameters. -/
def lookupRequest (q : Params) : Request :=
  Request.get "network/ip/service-policies" (get_service_policy_query q)

/-- NetAppOntapServicePolicy.apply on already validated parameters q (the
constructor has run): perform the lookup, plan via get_actions, and in
non-check mode apply the at most one mutator, threading the remote record and
logging every request.  raw is the raw module parameter map, which apply
passes through into the scope field of the exit report; a failure carries the
requests issued before it; u and d parameterize the server-assigned uuid and
default services of a create. -/
def apply_run (server : Option PolicyRecord) (q raw : Params) (check_mode : Bool)
    (u : String) (d : List String) :
    Except (String × List Request) (Report × Option PolicyRecord × List Request) :=
  let getReq := lookupRequest q
  let acts := get_actions server q
  let cd_action := acts.1
  let modify := acts.2.1
  let current := acts.2.2
  let changed := cd_action.isSome || diffNonempty modify
  let report : Report :=
    { changed := changed, cd_action := cd_action, modify := modify, scope := raw }
  if changed && !check_mode then
    if cd_action = some "create" then
      .ok (report, some (server_create q u d),
           [getReq, Request.post "network/ip/service-policies" (create_body q)])
    else if cd_action = some "delete" then
      match current with
      | some c =>
        .ok (report, none,
             [getReq, Request.delete ("network/ip/service-policies/" ++ c.uuid)])
      | none => .error ("internal error: delete action without a current record", [getReq])
    else if diffNonempty modify then
      match current with
      | some c =>
        match modify_service_policy c (modify.getD []) with
        | .ok req => .ok (report, some (server_patch c (patch_body req)), [getReq, req])
        | .error e => .error (e, [getReq])
      | none => .error ("internal error: modify without a current record", [getReq])
    else
      .ok (report, server, [getReq])
  else
    .ok (report, server, [getReq])

/-- One full module invocation, as main() performs it: the constructor
pipeline (init_params) followed by apply.  A validation failure aborts before
any request is issued. -/
def apply_module (server : Option PolicyRecord) (raw : Params) (check_mode : Bool)
    (u : String) (d : List String) :
    Except (String × List Request) (Report × Option PolicyRecord × List Request) :=
  match init_params raw with
  | .error e => .error (e, [])
  | .ok q => apply_run server q raw check_mode u d

/-- Whether a request is a GET (the lookup); the mutators are not. -/
def isGet : Request → Bool
  | .get _ _ => true
  | _ => false

/-- A run that fails having issued no request at all: validation rejected the
input before any network call. -/
def failsWithNoRequests (server : Option PolicyRecord) (raw : Params) (check_mode : Bool)
    (u : String) (d : List String) : Bool :=
  match apply_module server raw check_mode u d with
  | .error (_, []) => true
  | _ => false

/-! Helper lemmas about the planner decision. -/

theorem get_cd_action_eq_create (cur : Option PolicyRecord) (st : String) :
    get_cd_action cur st = some "create" ↔ cur = none ∧ st = "present" := by
  cases cur with
  | none => simp only [get_cd_action]; split <;> simp_all
  | some c => simp only [get_cd_action]; split <;> simp_all

theorem get_cd_action_eq_delete (cur : Option PolicyRecord) (st : String) :
    get_cd_action cur st = some "delete" ↔ (∃ c, cur = some c) ∧ st = "absent" := by
  cases cur with
  | none => simp only [get_cd_action]; split <;> simp_all
  | some c => simp only [get_cd_action]; split <;> simp_all

theorem get_cd_action_some_none (st : String) (c : PolicyRecord) (h : st ≠ "absent") :
    get_cd_action (some c) st = none := by
  simp [get_cd_action, h]

theorem get_cd_action_none_ne_absent {st : String} {c : PolicyRecord}
    (h : get_cd_action (some c) st = none) : st ≠ "absent" := by
  simp only [get_cd_action] at h
  intro habs
  simp [habs] at h

/-! Helper lemmas about validation and normalization. -/

theorem validate_services_ok_cases {p q : Params} (h : validate_services p = .ok q) :
    q = p ∨ q = { p with services := some [] } := by
  unfold validate_services at h
  split at h
  · split at h
    · split at h
      · exact absurd h (by simp)
      · cases h; right; rfl
    · cases h; left; rfl
  · cases h; left; rfl

theorem validate_scope_ok_frame {p q : Params} (h : validate_scope p = .ok q) :
    q.state = p.state ∧ q.name = p.name ∧ q.ipspace = p.ipspace ∧
      q.services = p.services ∧ q.vserver = p.vserver := by
  unfold validate_scope at h
  split at h
  · cases h; simp
  · split at h
    · exact absurd h (by simp)
    · split at h
      · exact absurd h (by simp)
      · cases h; simp

theorem validate_scope_ok_scope {p q : Params} (h : validate_scope p = .ok q) :
    q.scope = some (p.scope.getD (if p.vserver.isNone then "cluster" else "svm")) := by
  unfold validate_scope at h
  split at h
  next hsc =>
    cases h
    simp [hsc]
  next s hsc =>
    split at h
    · exact absurd h (by simp)
    · split at h
      · exact absurd h (by simp)
      · cases h
        simp [hsc]

theorem validate_inputs_ok_frame {p q : Params} (h : validate_inputs p = .ok q) :
    q.state = p.state ∧ q.name = p.name ∧ q.ipspace = p.ipspace ∧ q.vserver = p.vserver := by
  unfold validate_inputs at h
  split at h
  · exact absurd h (by simp)
  next p1 hp1 =>
    have h1 := validate_services_ok_cases hp1
    have h2 := validate_scope_ok_frame h
    rcases h1 with rfl | rfl
    · exact ⟨h2.1, h2.2.1, h2.2.2.1, h2.2.2.2.2⟩
    · exact ⟨h2.1, h2.2.1, h2.2.2.1, h2.2.2.2.2⟩

theorem validate_inputs_ok_scope {p q : Params} (h : validate_inputs p = .ok q) :
    q.scope = some (p.scope.getD (if p.vserver.isNone then "cluster" else "svm")) := by
  unfold validate_inputs at h
  split at h
  · exact absurd h (by simp)
  next p1 hp1 =>
    have h1 := validate_services_ok_cases hp1
    have h2 := validate_scope_ok_scope h
    rcases h1 with rfl | rfl
    · exact h2
    · exact h2

theorem validate_inputs_ok_services {p q : Params} (h : validate_inputs p = .ok q) :
    q.services = p.services ∨ q.services = some [] := by
  unfold validate_inputs at h
  split at h
  · exact absurd h (by simp)
  next p1 hp1 =>
    have h1 := validate_services_ok_cases hp1
    have h2 := (validate_scope_ok_frame h).2.2.2.1
    rcases h1 with rfl | rfl
    · left; exact h2
    · right; exact h2

theorem init_params_ok_frame {p q : Params} (h : init_params p = .ok q) :
    q.state = p.state ∧ q.name = p.name ∧ q.ipspace = p.ipspace ∧ q.vserver = p.vserver := by
  unfold init_params at h
  split at h
  · exact validate_inputs_ok_frame h
  · exact absurd h (by simp)

/-- The report apply builds from the planner outputs for validated
parameters q, with the raw parameter map raw passed through as the scope
field (as the source does). -/
def reportOf (server : Option PolicyRecord) (q raw : Params) : Report :=
  { changed := ((get_actions server q).1).isSome || diffNonempty (get_actions server q).2.1
    cd_action := (get_actions server q).1
    modify := (get_actions server q).2.1
    scope := raw }

theorem modify_service_policy_ok_patch {c : PolicyRecord} {m : List (String × Value)}
    {req : Request} (h : modify_service_policy c m = .ok req) :
    req = Request.patch ("network/ip/service-policies/" ++ c.uuid)
      (m.filter fun kv => pyInStr kv.1 "services") := by
  unfold modify_service_policy at h
  simp only [] at h
  split at h
  · exact absurd h (by simp)
  · split at h
    · exact absurd h (by simp)
    · cases h; rfl

/-- Every successful apply reports exactly the planner outputs with the raw
parameters in the scope field, and issues exactly one GET, the lookup with
the query built from the validated parameters. -/
theorem apply_run_shape (server : Option PolicyRecord) (q raw : Params) (cm : Bool)
    (u : String) (d : List String) :
    (∃ e, apply_run server q raw cm u d = .error (e, [lookupRequest q])) ∨
    (∃ s2 reqs, apply_run server q raw cm u d = .ok (reportOf server q raw, s2, reqs) ∧
      reqs.filter isGet = [lookupRequest q]) := by
  unfold apply_run
  simp only []
  split
  · split
    · right
      exact ⟨_, _, rfl, by simp [isGet, lookupRequest]⟩
    · split
      · split
        · right
          exact ⟨_, _, rfl, by simp [isGet, lookupRequest]⟩
        · left
          exact ⟨_, rfl⟩
      · split
        · split
          · split
            next req hreq =>
              right
              refine ⟨_, _, rfl, ?_⟩
              have := modify_service_policy_ok_patch hreq
              subst this
              simp [isGet, lookupRequest]
            · left
              exact ⟨_, rfl⟩
          · left
            exact ⟨_, rfl⟩
        · right
          exact ⟨_, _, rfl, by simp [isGet, lookupRequest]⟩
  · right
    exact ⟨_, _, rfl, by simp [isGet, lookupRequest]⟩

/-- Every successful run was validated, reports exactly the planner outputs
with the raw parameters in the scope field, and issued exactly one GET, the
lookup with the query built from the validated parameters. -/
theorem apply_ok_shape {server : Option PolicyRecord} {raw : Params} {cm : Bool}
    {u : String} {d : List String} {r : Report} {s2 : Option PolicyRecord}
    {reqs : List Request}
    (h : apply_module server raw cm u d = .ok (r, s2, reqs)) :
    ∃ q, init_params raw = .ok q ∧ r = reportOf server q raw ∧
      reqs.filter isGet = [lookupRequest q] := by
  unfold apply_module at h
  cases hinit : init_params raw with
  | error e => rw [hinit] at h; exact absurd h (by simp)
  | ok q =>
    rw [hinit] at h
    have h2 : apply_run server q raw cm u d = .ok (r, s2, reqs) := h
    refine ⟨q, rfl, ?_⟩
    rcases apply_run_shape server q raw cm u d with ⟨e, he⟩ | ⟨s2', reqs', hok, hflt⟩
    · rw [he] at h2
      exact absurd h2 (by simp)
    · rw [hok] at h2
      cases h2
      exact ⟨rfl, hflt⟩

/-- In check mode the planner runs and its outputs are reported, the lookup
is the only request issued, and the remote record is left untouched. -/
theorem apply_run_check_mode (server : Option PolicyRecord) (q raw : Params)
    (u : String) (d : List String) :
    apply_run server q raw true u d =
      .ok (reportOf server q raw, server, [lookupRequest q]) := by
  unfold apply_run
  simp [reportOf]

/-- A run on which the planner decides create: the POST is issued and the
record the server builds from it becomes the remote state. -/
theorem apply_run_create_eq (server : Option PolicyRecord) (q raw : Params)
    (u : String) (d : List String)
    (hcd : get_cd_action server q.state = some "create") :
    apply_run server q raw false u d =
      .ok ({ changed := true, cd_action := some "create", modify := none, scope := raw },
           some (server_create q u d),
           [lookupRequest q, Request.post "network/ip/service-policies" (create_body q)]) := by
  unfold apply_run
  simp [get_actions, get_service_policy, hcd, diffNonempty]

/-- A run on which the planner decides delete: the DELETE on the
uuid-addressed endpoint is issued and the remote record disappears. -/
theorem apply_run_delete_eq (c : PolicyRecord) (q raw : Params)
    (u : String) (d : List String)
    (hcd : get_cd_action (some c) q.state = some "delete") :
    apply_run (some c) q raw false u d =
      .ok ({ changed := true, cd_action := some "delete", modify := none, scope := raw },
           none,
           [lookupRequest q, Request.delete ("network/ip/service-policies/" ++ c.uuid)]) := by
  unfold apply_run
  simp [get_actions, get_service_policy, hcd, diffNonempty]

/-- A run on which the planner decides nothing: no mutator is invoked and
the remote record is left untouched. -/
theorem apply_run_noop_eq (server : Option PolicyRecord) (q raw : Params)
    (cm : Bool) (u : String) (d : List String)
    (hcd : get_cd_action server q.state = none)
    (hdiff : get_modified_attributes server q = []) :
    apply_run server q raw cm u d =
      .ok ({ changed := false, cd_action := none, modify := some [], scope := raw },
           server, [lookupRequest q]) := by
  unfold apply_run
  simp [get_actions, get_service_policy, hcd, hdiff, diffNonempty]

/-- A run on which the planner computes a non-empty diff: the PATCH carrying
the services body is issued and the services of the remote record are
replaced. -/
theorem apply_run_modify_eq (c : PolicyRecord) (q raw : Params)
    (u : String) (d : List String) (svcs : List String)
    (hst : q.state ≠ "absent") (hsv : q.services = some svcs)
    (hne : svcs ≠ c.services) :
    apply_run (some c) q raw false u d =
      .ok ({ changed := true, cd_action := none,
             modify := some [("services", Value.list svcs)], scope := raw },
           some { c with services := svcs },
           [lookupRequest q,
            Request.patch ("network/ip/service-policies/" ++ c.uuid)
              [("services", Value.list svcs)]]) := by
  have hcd : get_cd_action (some c) q.state = none := get_cd_action_some_none q.state c hst
  have hdiff : get_modified_attributes (some c) q = [("services", Value.list svcs)] := by
    simp [get_modified_attributes, hsv, hne]
  unfold apply_run
  simp only [get_actions, get_service_policy, hcd, hdiff, diffNonempty]
  rfl

theorem get_cd_action_values (cur : Option PolicyRecord) (st : String) :
    get_cd_action cur st = none ∨ get_cd_action cur st = some "create" ∨
      get_cd_action cur st = some "delete" := by
  cases cur with
  | none => simp only [get_cd_action]; split <;> simp
  | some c => simp only [get_cd_action]; split <;> simp

/-- After any successful non-check run, the remote record it leaves behind
satisfies the desired state: the planner would decide no action and an empty
diff on it. -/
theorem apply_run_ok_second {server s1 : Option PolicyRecord} {q raw : Params}
    {u : String} {d : List String} {r1 : Report} {reqs1 : List Request}
    (h : apply_run server q raw false u d = .ok (r1, s1, reqs1)) :
    get_cd_action s1 q.state = none ∧ get_modified_attributes s1 q = [] := by
  rcases get_cd_action_values server q.state with hcd | hcd | hcd
  · cases hdiff : get_modified_attributes server q with
    | nil =>
      rw [apply_run_noop_eq server q raw false u d hcd hdiff] at h
      cases h
      exact ⟨hcd, hdiff⟩
    | cons hd tl =>
      cases server with
      | none => simp [get_modified_attributes] at hdiff
      | some c =>
        cases hsv : q.services with
        | none => simp [get_modified_attributes, hsv] at hdiff
        | some svcs =>
          have hne : svcs ≠ c.services := by
            intro hcontra
            simp [get_modified_attributes, hsv, hcontra] at hdiff
          have hst : q.state ≠ "absent" := get_cd_action_none_ne_absent hcd
          rw [apply_run_modify_eq c q raw u d svcs hst hsv hne] at h
          cases h
          constructor
          · exact get_cd_action_some_none q.state _ hst
          · simp [get_modified_attributes, hsv]
  · rw [apply_run_create_eq server q raw u d hcd] at h
    obtain ⟨hnone, hpresent⟩ := (get_cd_action_eq_create server q.state).mp hcd
    cases h
    constructor
    · rw [hpresent]
      exact get_cd_action_some_none _ _ (by decide)
    · cases hsv : q.services with
      | none => simp [get_modified_attributes, hsv]
      | some svcs => simp [get_modified_attributes, hsv, server_create]
  · obtain ⟨⟨c, hc⟩, habsent⟩ := (get_cd_action_eq_delete server q.state).mp hcd
    subst hc
    rw [apply_run_delete_eq c q raw u d hcd] at h
    cases h
    constructor
    · rw [habsent]
      simp [get_cd_action]
    · simp [get_modified_attributes]

theorem init_params_ok_state {p q : Params} (h : init_params p = .ok q) :
    q.state = "present" ∨ q.state = "absent" := by
  unfold init_params at h
  split at h
  next hchk =>
    have hst : p.state = "present" ∨ p.state = "absent" := by
      simp only [choices_ok, Bool.and_eq_true, Bool.or_eq_true, beq_iff_eq] at hchk
      exact hchk.1.1.1.1
    have := (validate_inputs_ok_frame h).1
    rw [this]
    exact hst
  · exact absurd h (by simp)

/-! Helper lemmas about validation failures and the shapes they can take. -/

theorem one_lt_length_of_two_mem {l : List String} {a b : String}
    (ha : a ∈ l) (hb : b ∈ l) (hne : a ≠ b) : 1 < l.length := by
  cases l with
  | nil => cases ha
  | cons x t =>
    cases t with
    | nil =>
      rw [List.mem_singleton] at ha hb
      exact absurd (ha.trans hb.symm) hne
    | cons y t2 => simp [List.length]

theorem validate_services_error_of_extra {p : Params} {svcs : List String}
    (hsv : p.services = some svcs) (hmem : "no_service" ∈ svcs)
    (hother : ∃ x ∈ svcs, x ≠ "no_service") :
    validate_services p =
      .error "Error: no other service can be present when no_service is specified." := by
  obtain ⟨x, hx, hxne⟩ := hother
  have hlen : 1 < svcs.length := one_lt_length_of_two_mem hx hmem hxne
  have hne : svcs ≠ [] := by
    intro hc
    rw [hc] at hmem
    cases hmem
  unfold validate_services
  rw [hsv]
  simp [hne, hmem, hlen]

theorem validate_scope_error_cluster {p : Params} (hsc : p.scope = some "cluster")
    (hvs : p.vserver ≠ none) :
    validate_scope p = .error "Error: vserver cannot be set when scope cluster is specified." := by
  unfold validate_scope
  rw [hsc]
  have : p.vserver.isSome = true := Option.isSome_iff_ne_none.mpr hvs
  simp [this]

theorem validate_scope_error_svm {p : Params} (hsc : p.scope = some "svm")
    (hvs : p.vserver = none) :
    validate_scope p = .error "Error: vserver cannot be None when scope svm is specified." := by
  unfold validate_scope
  rw [hsc]
  simp [hvs]

theorem init_params_ok_of_validate {p q : Params} (h : init_params p = .ok q) :
    (choices_ok p && required_if_ok p && required_one_of_ok p) = true ∧
      validate_inputs p = .ok q := by
  unfold init_params at h
  split at h
  next hchk => exact ⟨hchk, h⟩
  · exact absurd h (by simp)

theorem validate_inputs_ok_of_services {p q : Params} (h : validate_inputs p = .ok q) :
    ∃ p1, validate_services p = .ok p1 ∧ validate_scope p1 = .ok q := by
  unfold validate_inputs at h
  split at h
  · exact absurd h (by simp)
  next p1 hp1 => exact ⟨p1, hp1, h⟩

/-- After successful validation the scope parameter is one of the two
declared choices (the explicit value passed the choices check; a derived
value is one of the two by construction). -/
theorem init_params_ok_scope_values {p q : Params} (h : init_params p = .ok q) :
    q.scope = some "cluster" ∨ q.scope = some "svm" := by
  obtain ⟨hchk, hval⟩ := init_params_ok_of_validate h
  have hsc := validate_inputs_ok_scope hval
  cases hps : p.scope with
  | none =>
    rw [hps] at hsc
    by_cases hvs : p.vserver.isNone
    · left; simpa [hvs] using hsc
    · right; simpa [hvs] using hsc
  | some s =>
    rw [hps] at hsc
    simp only [Option.getD_some] at hsc
    have hs : (s == "cluster" || s == "svm") = true := by
      simp only [choices_ok, Bool.and_eq_true] at hchk
      have := hchk.1.1.1.2
      rw [hps] at this
      exact this
    rcases Bool.or_eq_true_iff.mp hs with hs | hs
    · left; rw [hsc, beq_iff_eq.mp hs]
    · right; rw [hsc, beq_iff_eq.mp hs]

/-- After successful validation a cluster scope, explicit or derived, comes
with an ipspace: the required_if rules force it. -/
theorem init_params_ok_cluster_ipspace {p q : Params} (h : init_params p = .ok q)
    (hsc : q.scope = some "cluster") : q.ipspace ≠ none := by
  obtain ⟨hchk, hval⟩ := init_params_ok_of_validate h
  have hframe := validate_inputs_ok_frame hval
  have hscope := validate_inputs_ok_scope hval
  simp only [choices_ok, required_if_ok, required_one_of_ok, Bool.and_eq_true] at hchk
  rw [hframe.2.2.1]
  cases hps : p.scope with
  | none =>
    rw [hps] at hscope
    simp only [Option.getD_none] at hscope
    by_cases hvs : p.vserver.isNone
    · have hc := hchk.1.2.2
      simp only [hvs, Bool.not_true, Bool.false_or] at hc
      exact Option.isSome_iff_ne_none.mp hc
    · rw [hscope] at hsc
      simp [hvs] at hsc
  | some s =>
    rw [hps] at hscope
    simp only [Option.getD_some] at hscope
    rw [hscope] at hsc
    cases hsc
    have hc := hchk.1.2.1.1
    rw [hps] at hc
    simp only [beq_self_eq_true, Bool.not_true, Bool.false_or] at hc
    exact Option.isSome_iff_ne_none.mp hc

theorem apply_module_error_of_init {raw : Params} {e : String}
    (h : init_params raw = .error e) (server : Option PolicyRecord) (cm : Bool)
    (u : String) (d : List String) :
    apply_module server raw cm u d = .error (e, []) := by
  unfold apply_module
  rw [h]

theorem failsWithNoRequests_of_init {raw : Params} {e : String}
    (h : init_params raw = .error e) (server : Option PolicyRecord) (cm : Bool)
    (u : String) (d : List String) :
    failsWithNoRequests server raw cm u d = true := by
  unfold failsWithNoRequests
  rw [apply_module_error_of_init h server cm u d]

theorem failsWithNoRequests_of_not_ok {raw : Params}
    (h : ∀ q, init_params raw ≠ .ok q) (server : Option PolicyRecord) (cm : Bool)
    (u : String) (d : List String) :
    failsWithNoRequests server raw cm u d = true := by
  cases hinit : init_params raw with
  | error e => exact failsWithNoRequests_of_init hinit server cm u d
  | ok q => exact absurd hinit (h q)

/-! Helper lemmas about the dictionaries the module builds. -/

theorem create_body_lookup (p : Params) :
    alookup (create_body p) "name" = some (Value.str p.name) ∧
    alookup (create_body p) "svm.name" = Option.map Value.str p.vserver ∧
    alookup (create_body p) "ipspace" = Option.map Value.str p.ipspace ∧
    alookup (create_body p) "scope" = Option.map Value.str p.scope ∧
    alookup (create_body p) "services" = Option.map Value.list p.services := by
  obtain ⟨st, nm, ip, sc, sv, vs⟩ := p
  cases ip <;> cases sc <;> cases sv <;> cases vs <;>
    simp +decide [create_body, alookup]

theorem create_body_keys_subset (p : Params) :
    ∀ kv ∈ create_body p, kv.1 ∈ ["name", "svm.name", "ipspace", "scope", "services"] := by
  have hb : ((create_body p).all fun kv =>
      ["name", "svm.name", "ipspace", "scope", "services"].contains kv.1) = true := by
    obtain ⟨st, nm, ip, sc, sv, vs⟩ := p
    cases ip <;> cases sc <;> cases sv <;> cases vs <;> rfl
  intro kv hkv
  exact List.mem_of_elem_eq_true (List.all_eq_true.mp hb kv hkv)

theorem query_lookup (p : Params) :
    alookup (get_service_policy_query p) "name" = some p.name ∧
    alookup (get_service_policy_query p) "fields" =
      some "name,uuid,ipspace,services,svm" ∧
    alookup (get_service_policy_query p) "scope" =
      (if p.vserver = none then some "cluster" else none) ∧
    alookup (get_service_policy_query p) "svm.name" = p.vserver ∧
    alookup (get_service_policy_query p) "ipspace.name" = p.ipspace := by
  obtain ⟨st, nm, ip, sc, sv, vs⟩ := p
  cases ip <;> cases vs <;>
    simp +decide [get_service_policy_query, alookup]

theorem query_keys_subset (p : Params) :
    ∀ kv ∈ get_service_policy_query p,
      kv.1 ∈ ["name", "fields", "scope", "svm.name", "ipspace.name"] := by
  have hb : ((get_service_policy_query p).all fun kv =>
      ["name", "fields", "scope", "svm.name", "ipspace.name"].contains kv.1) = true := by
    obtain ⟨st, nm, ip, sc, sv, vs⟩ := p
    cases ip <;> cases vs <;> rfl
  intro kv hkv
  exact List.mem_of_elem_eq_true (List.all_eq_true.mp hb kv hkv)

/-- The attribute names a computed diff can draw its keys from: the fields of
the current record returned by the lookup projection and the declared module
parameters. -/
def moduleAttrKeys : List String :=
  ["name", "uuid", "ipspace", "services", "svm", "scope", "vserver", "state"]

/-- On the attribute names of this module the Python substring test of
modify_service_policy coincides with equality with "services". -/
theorem pyInStr_services_of_keys {k : String} (h : k ∈ moduleAttrKeys) :
    pyInStr k "services" = (k == "services") := by
  fin_cases h <;> rfl

theorem changed_flag_iff (cd : Option String) (mod : Option (List (String × Value))) :
    (cd.isSome || diffNonempty mod) = true ↔ (cd ≠ none ∨ mod.getD [] ≠ []) := by
  cases cd <;> cases mod <;> simp [diffNonempty]

theorem init_params_ok_no_service {p q : Params} (h : init_params p = .ok q)
    (hsv : p.services = some ["no_service"]) : q.services = some [] := by
  obtain ⟨hchk, hval⟩ := init_params_ok_of_validate h
  obtain ⟨p1, hps, hsc⟩ := validate_inputs_ok_of_services hval
  have hvs : validate_services p = .ok { p with services := some [] } := by
    unfold validate_services
    rw [hsv]
    rfl
  rw [hvs] at hps
  cases hps
  have := (validate_scope_ok_frame hsc).2.2.2.1
  simpa using this

/-! Claim theorems. -/

/-- Claim C1: the action planner is a pure function of the current and
desired state matching the four-case table: absent/present gives create,
present/absent gives delete, present/present computes the diff and the
modify component carries it, absent/absent gives no action; the modify diff
is computed only when cd_action is null; and the changed flag reported on
exit is true iff cd_action is non-null or the diff is non-empty. -/
theorem claim1_planner_table (server : Option PolicyRecord) (q : Params) :
    (server = none ∧ q.state = "present" → (get_actions server q).1 = some "create") ∧
    ((∃ c, server = some c) ∧ q.state = "absent" →
      (get_actions server q).1 = some "delete") ∧
    ((∃ c, server = some c) ∧ q.state = "present" →
      (get_actions server q).1 = none ∧
      (get_actions server q).2.1 = some (get_modified_attributes server q)) ∧
    (server = none ∧ q.state = "absent" →
      (get_actions server q).1 = none ∧ (get_actions server q).2.1 = some []) ∧
    ((get_actions server q).2.1 ≠ none ↔ (get_actions server q).1 = none) ∧
    (∀ raw cm u d r s2 reqs, apply_module server raw cm u d = .ok (r, s2, reqs) →
      (r.changed = true ↔ (r.cd_action ≠ none ∨ r.modify.getD [] ≠ []))) := by
  refine ⟨?_, ?_, ?_, ?_, ?_, ?_⟩
  · rintro ⟨rfl, hp⟩
    simp [get_actions, get_service_policy, get_cd_action, hp]
  · rintro ⟨⟨c, rfl⟩, ha⟩
    simp [get_actions, get_service_policy, get_cd_action, ha]
  · rintro ⟨⟨c, rfl⟩, hp⟩
    simp [get_actions, get_service_policy, get_cd_action, hp]
  · rintro ⟨rfl, ha⟩
    simp [get_actions, get_service_policy, get_cd_action, get_modified_attributes, ha]
  · simp only [get_actions, get_service_policy]
    cases hcd : get_cd_action server q.state <;> simp [hcd]
  · intro raw cm u d r s2 reqs h
    obtain ⟨q2, hq2, hrep, hflt⟩ := apply_ok_shape h
    rw [hrep]
    exact changed_flag_iff (get_actions server q2).1 (get_actions server q2).2.1

/-- Witness for claim C1 at a concrete input: absent current with desired
present plans a create. -/
theorem claim1_planner_table_witness :
    (get_actions none { name := "p1", ipspace := some "i1" }).1 = some "create" :=
  (claim1_planner_table none { name := "p1", ipspace := some "i1" }).1 ⟨rfl, rfl⟩

/-- Claim C2: running the reconciliation twice with identical desired
parameters and no external change (the mutators of the first run take effect
as requested) leaves the remote record of the first run untouched and
reports changed false, a null cd_action and an empty modify diff on the
second run, issuing only the lookup. -/
theorem claim2_idempotent (server : Option PolicyRecord) (raw : Params)
    (u : String) (d : List String) (u2 : String) (d2 : List String)
    (r1 : Report) (s1 : Option PolicyRecord) (reqs1 : List Request) (q : Params)
    (h : apply_module server raw false u d = .ok (r1, s1, reqs1))
    (hq : init_params raw = .ok q) :
    apply_module s1 raw false u2 d2 =
      .ok ({ changed := false, cd_action := none, modify := some [], scope := raw },
           s1, [lookupRequest q]) := by
  have h1 : apply_run server q raw false u d = .ok (r1, s1, reqs1) := by
    unfold apply_module at h
    rw [hq] at h
    exact h
  obtain ⟨hcd, hdiff⟩ := apply_run_ok_second h1
  unfold apply_module
  rw [hq]
  exact apply_run_noop_eq s1 q raw false u2 d2 hcd hdiff

/-- Witness for claim C2: after a concrete create run, the second run with
the same parameters reports no change, no action, an empty diff, and issues
only the lookup. -/
theorem claim2_idempotent_witness :
    apply_module
        (some { name := "p1", uuid := "u1", ipspace := some "i1", services := [],
                svm := none })
        { name := "p1", ipspace := some "i1" } false "u2" [] =
      .ok ({ changed := false, cd_action := none, modify := some [],
             scope := { name := "p1", ipspace := some "i1" } },
           some { name := "p1", uuid := "u1", ipspace := some "i1", services := [],
                  svm := none },
           [lookupRequest { name := "p1", ipspace := some "i1", scope := some "cluster" }]) :=
  claim2_idempotent none { name := "p1", ipspace := some "i1" } "u1" [] "u2" []
    { changed := true, cd_action := some "create", modify := none,
      scope := { name := "p1", ipspace := some "i1" } }
    (some { name := "p1", uuid := "u1", ipspace := some "i1", services := [],
            svm := none })
    [lookupRequest { name := "p1", ipspace := some "i1", scope := some "cluster" },
     Request.post "network/ip/service-policies"
       (create_body { name := "p1", ipspace := some "i1", scope := some "cluster" })]
    { name := "p1", ipspace := some "i1", scope := some "cluster" }
    (by rfl) (by rfl)

/-- Claim C3: a services list carrying no_service together with at least one
other value makes the run fail before any network call; a services list that
is exactly no_service is normalized to the empty list by successful
validation, before any comparison or request. -/
theorem claim3_no_service (p : Params) (svcs : List String)
    (hs : p.services = some svcs) :
    ("no_service" ∈ svcs → (∃ x ∈ svcs, x ≠ "no_service") →
      ∀ server cm u d, failsWithNoRequests server p cm u d = true) ∧
    (svcs = ["no_service"] → ∀ q, init_params p = .ok q → q.services = some []) := by
  constructor
  · intro hmem hother server cm u d
    apply failsWithNoRequests_of_not_ok _ server cm u d
    intro q hok
    obtain ⟨hchk, hval⟩ := init_params_ok_of_validate hok
    obtain ⟨p1, hps, hsc⟩ := validate_inputs_ok_of_services hval
    rw [validate_services_error_of_extra hs hmem hother] at hps
    cases hps
  · intro hsvc q hok
    exact init_params_ok_no_service hok (hsvc ▸ hs)

/-- Witness for claim C3: no_service next to data_nfs is rejected with no
request issued. -/
theorem claim3_no_service_witness :
    failsWithNoRequests none
      { name := "p1", ipspace := some "i1",
        services := some ["no_service", "data_nfs"] } false "u1" [] = true :=
  (claim3_no_service
      { name := "p1", ipspace := some "i1",
        services := some ["no_service", "data_nfs"] }
      ["no_service", "data_nfs"] rfl).1 (by decide)
    ⟨"data_nfs", by decide, by decide⟩ none false "u1" []

/-- Claim C4: on a computed modify diff, whose keys are attribute names of
this module, any key other than services is a fatal error before the PATCH,
the absence of a services key (empty body) is a fatal error before the
PATCH, and otherwise the PATCH goes to the uuid-addressed endpoint with a
body holding only the services key. -/
theorem claim4_modify_contract (c : PolicyRecord) (m : List (String × Value))
    (hkeys : ∀ kv ∈ m, kv.1 ∈ moduleAttrKeys) :
    ((∃ kv ∈ m, kv.1 ≠ "services") → ∃ e, modify_service_policy c m = .error e) ∧
    ((∀ kv ∈ m, kv.1 ≠ "services") → ∃ e, modify_service_policy c m = .error e) ∧
    ((∀ kv ∈ m, kv.1 = "services") → m ≠ [] →
      modify_service_policy c m =
        .ok (Request.patch ("network/ip/service-policies/" ++ c.uuid) m)) := by
  have hfil : ∀ kv ∈ m, pyInStr kv.1 "services" = (kv.1 == "services") :=
    fun kv hkv => pyInStr_services_of_keys (hkeys kv hkv)
  refine ⟨?_, ?_, ?_⟩
  · rintro ⟨kv0, hkv0, hne0⟩
    have hmemf : kv0 ∈ m.filter fun kv => !pyInStr kv.1 "services" := by
      refine List.mem_filter.mpr ⟨hkv0, ?_⟩
      rw [hfil kv0 hkv0]
      simp [hne0]
    have hcopy : (m.filter fun kv => !pyInStr kv.1 "services") ≠ [] :=
      List.ne_nil_of_mem hmemf
    unfold modify_service_policy
    simp only []
    rw [if_pos hcopy]
    exact ⟨_, rfl⟩
  · intro hall
    unfold modify_service_policy
    simp only []
    by_cases hcopy : (m.filter fun kv => !pyInStr kv.1 "services") = []
    · have hbody : (m.filter fun kv => pyInStr kv.1 "services") = [] := by
        refine List.filter_eq_nil_iff.mpr fun kv hkv => ?_
        rw [hfil kv hkv]
        simp [hall kv hkv]
      rw [if_neg (by simpa using hcopy), if_pos hbody]
      exact ⟨_, rfl⟩
    · rw [if_pos hcopy]
      exact ⟨_, rfl⟩
  · intro hall hne
    have hbody : (m.filter fun kv => pyInStr kv.1 "services") = m := by
      refine List.filter_eq_self.mpr fun kv hkv => ?_
      rw [hfil kv hkv]
      exact beq_iff_eq.mpr (hall kv hkv)
    have hcopy : (m.filter fun kv => !pyInStr kv.1 "services") = [] := by
      refine List.filter_eq_nil_iff.mpr fun kv hkv => ?_
      rw [hfil kv hkv]
      simp [hall kv hkv]
    unfold modify_service_policy
    simp only []
    rw [hcopy, hbody]
    simp [hne]

/-- Witness for claim C4: a pure services diff is patched through to the
uuid-addressed endpoint as is. -/
theorem claim4_modify_contract_witness :
    modify_service_policy
        { name := "p1", uuid := "u1", ipspace := some "i1",
          services := ["data_nfs"], svm := none }
        [("services", Value.list ["data_cifs"])] =
      .ok (Request.patch "network/ip/service-policies/u1"
        [("services", Value.list ["data_cifs"])]) :=
  (claim4_modify_contract
      { name := "p1", uuid := "u1", ipspace := some "i1",
        services := ["data_nfs"], svm := none }
      [("services", Value.list ["data_cifs"])] (by decide)).2.2
    (by decide) (by decide)

/-- Claim C5: an unset scope is derived from vserver (svm when given, else
cluster); explicit cluster scope with a vserver fails before any network
call; explicit svm scope without a vserver fails before any network call;
explicit cluster scope without an ipspace fails before any network call; and
after successful validation a cluster scope always comes with an ipspace. -/
theorem claim5_scope_rules (p : Params) :
    (p.scope = none → ∀ q, init_params p = .ok q →
      q.scope = some (if p.vserver.isNone then "cluster" else "svm")) ∧
    (p.scope = some "cluster" → p.vserver ≠ none →
      ∀ server cm u d, failsWithNoRequests server p cm u d = true) ∧
    (p.scope = some "svm" → p.vserver = none →
      ∀ server cm u d, failsWithNoRequests server p cm u d = true) ∧
    (p.scope = some "cluster" → p.ipspace = none →
      ∀ server cm u d, failsWithNoRequests server p cm u d = true) ∧
    (∀ q, init_params p = .ok q → q.scope = some "cluster" → q.ipspace ≠ none) := by
  refine ⟨?_, ?_, ?_, ?_, ?_⟩
  · intro hsc q hok
    have := validate_inputs_ok_scope (init_params_ok_of_validate hok).2
    rw [hsc] at this
    simpa using this
  · intro hsc hvs server cm u d
    apply failsWithNoRequests_of_not_ok _ server cm u d
    intro q hok
    obtain ⟨hchk, hval⟩ := init_params_ok_of_validate hok
    obtain ⟨p1, hps, hsc1⟩ := validate_inputs_ok_of_services hval
    rcases validate_services_ok_cases hps with rfl | rfl
    · rw [validate_scope_error_cluster hsc hvs] at hsc1
      cases hsc1
    · rw [validate_scope_error_cluster (p := { p with services := some [] }) hsc hvs] at hsc1
      cases hsc1
  · intro hsc hvs server cm u d
    apply failsWithNoRequests_of_not_ok _ server cm u d
    intro q hok
    obtain ⟨hchk, hval⟩ := init_params_ok_of_validate hok
    obtain ⟨p1, hps, hsc1⟩ := validate_inputs_ok_of_services hval
    rcases validate_services_ok_cases hps with rfl | rfl
    · rw [validate_scope_error_svm hsc hvs] at hsc1
      cases hsc1
    · rw [validate_scope_error_svm (p := { p with services := some [] }) hsc hvs] at hsc1
      cases hsc1
  · intro hsc hip server cm u d
    apply failsWithNoRequests_of_not_ok _ server cm u d
    intro q hok
    obtain ⟨hchk, hval⟩ := init_params_ok_of_validate hok
    simp only [required_if_ok, choices_ok, required_one_of_ok, Bool.and_eq_true] at hchk
    have hrule := hchk.1.2.1.1
    rw [hsc, hip] at hrule
    simp at hrule
  · exact fun q hok => init_params_ok_cluster_ipspace hok

/-- Witness for claim C5: explicit cluster scope together with a vserver is
rejected with no request issued. -/
theorem claim5_scope_rules_witness :
    failsWithNoRequests none
      { name := "p1", ipspace := some "i1", scope := some "cluster",
        vserver := some "vs1" } false "u1" [] = true :=
  (claim5_scope_rules
      { name := "p1", ipspace := some "i1", scope := some "cluster",
        vserver := some "vs1" }).2.1 rfl (by decide) none false "u1" []

/-- Claim C6: in check mode the lookup and the planner still execute and
changed, cd_action and the modify diff are reported, but no create, modify
or delete mutator request is issued and the remote record is unchanged. -/
theorem claim6_check_mode (server : Option PolicyRecord) (raw : Params)
    (u : String) (d : List String) (q : Params) (hq : init_params raw = .ok q) :
    apply_module server raw true u d =
      .ok (reportOf server q raw, server, [lookupRequest q]) := by
  unfold apply_module
  rw [hq]
  exact apply_run_check_mode server q raw u d

/-- Witness for claim C6: a concrete check-mode run on an absent resource
reports the planned create but issues only the lookup and leaves the remote
state absent. -/
theorem claim6_check_mode_witness :
    apply_module none { name := "p1", ipspace := some "i1" } true "u1" [] =
      .ok (reportOf none { name := "p1", ipspace := some "i1", scope := some "cluster" }
             { name := "p1", ipspace := some "i1" },
           none,
           [lookupRequest { name := "p1", ipspace := some "i1", scope := some "cluster" }]) :=
  claim6_check_mode none { name := "p1", ipspace := some "i1" } "u1" []
    { name := "p1", ipspace := some "i1", scope := some "cluster" } (by rfl)

/-- Claim C7: the lookup query carries name, the fixed field projection,
scope=cluster exactly when vserver is unset, svm.name exactly when vserver
is set, ipspace.name exactly when ipspace is set, and nothing else; and
every successful run issues exactly one GET, to the list endpoint with that
query built from the validated parameters. -/
theorem claim7_lookup_query (p : Params) :
    alookup (get_service_policy_query p) "name" = some p.name ∧
    alookup (get_service_policy_query p) "fields" =
      some "name,uuid,ipspace,services,svm" ∧
    alookup (get_service_policy_query p) "scope" =
      (if p.vserver = none then some "cluster" else none) ∧
    alookup (get_service_policy_query p) "svm.name" = p.vserver ∧
    alookup (get_service_policy_query p) "ipspace.name" = p.ipspace ∧
    (∀ kv ∈ get_service_policy_query p,
      kv.1 ∈ ["name", "fields", "scope", "svm.name", "ipspace.name"]) ∧
    (∀ server raw cm u d r s2 reqs,
      apply_module server raw cm u d = .ok (r, s2, reqs) →
      ∃ q, init_params raw = .ok q ∧
        reqs.filter isGet =
          [Request.get "network/ip/service-policies" (get_service_policy_query q)]) := by
  refine ⟨(query_lookup p).1, (query_lookup p).2.1, (query_lookup p).2.2.1,
    (query_lookup p).2.2.2.1, (query_lookup p).2.2.2.2, query_keys_subset p, ?_⟩
  intro server raw cm u d r s2 reqs h
  obtain ⟨q, hq, _, hflt⟩ := apply_ok_shape h
  exact ⟨q, hq, hflt⟩

/-- Witness for claim C7 at a concrete input: with a vserver the query
filters on svm.name and carries no scope filter. -/
theorem claim7_lookup_query_witness :
    alookup (get_service_policy_query { name := "p1", vserver := some "vs1" })
        "svm.name" = some "vs1" ∧
    alookup (get_service_policy_query { name := "p1", vserver := some "vs1" })
        "scope" = none :=
  ⟨(claim7_lookup_query { name := "p1", vserver := some "vs1" }).2.2.2.1,
   (claim7_lookup_query { name := "p1", vserver := some "vs1" }).2.2.1⟩

/-- Claim C8: the POST body of create carries exactly the name key always,
svm.name iff vserver is set, and each of ipspace, scope and services iff the
corresponding parameter is non-null, and no other key. -/
theorem claim8_create_body (p : Params) :
    alookup (create_body p) "name" = some (Value.str p.name) ∧
    alookup (create_body p) "svm.name" = Option.map Value.str p.vserver ∧
    alookup (create_body p) "ipspace" = Option.map Value.str p.ipspace ∧
    alookup (create_body p) "scope" = Option.map Value.str p.scope ∧
    alookup (create_body p) "services" = Option.map Value.list p.services ∧
    ∀ kv ∈ create_body p, kv.1 ∈ ["name", "svm.name", "ipspace", "scope", "services"] :=
  ⟨(create_body_lookup p).1, (create_body_lookup p).2.1, (create_body_lookup p).2.2.1,
   (create_body_lookup p).2.2.2.1, (create_body_lookup p).2.2.2.2,
   create_body_keys_subset p⟩

/-- Witness for claim C8 at a concrete input. -/
theorem claim8_create_body_witness :
    alookup
        (create_body { name := "p1", vserver := some "vs1", services := some ["data_nfs"] })
        "svm.name" = some (Value.str "vs1") ∧
    alookup
        (create_body { name := "p1", vserver := some "vs1", services := some ["data_nfs"] })
        "ipspace" = none :=
  ⟨(claim8_create_body
      { name := "p1", vserver := some "vs1", services := some ["data_nfs"] }).2.1,
   (claim8_create_body
      { name := "p1", vserver := some "vs1", services := some ["data_nfs"] }).2.2.1⟩

/-- Claim C9: on every successful completion the exit report carries a field
named scope whose value is the entire raw module parameter map, not the
scope string. -/
theorem claim9_report_scope (server : Option PolicyRecord) (raw : Params) (cm : Bool)
    (u : String) (d : List String) (r : Report) (s2 : Option PolicyRecord)
    (reqs : List Request)
    (h : apply_module server raw cm u d = .ok (r, s2, reqs)) :
    r.scope = raw := by
  obtain ⟨q, hq, hrep, hflt⟩ := apply_ok_shape h
  rw [hrep]
  rfl

/-- Witness for claim C9: a concrete run whose report carries the whole raw
parameter map in the scope field. -/
theorem claim9_report_scope_witness :
    ({ changed := true, cd_action := some "create", modify := none,
       scope := { name := "p1", ipspace := some "i1" } } : Report).scope =
      { name := "p1", ipspace := some "i1" } :=
  claim9_report_scope none { name := "p1", ipspace := some "i1" } false "u1" []
    { changed := true, cd_action := some "create", modify := none,
      scope := { name := "p1", ipspace := some "i1" } }
    (some { name := "p1", uuid := "u1", ipspace := some "i1", services := [],
            svm := none })
    [lookupRequest { name := "p1", ipspace := some "i1", scope := some "cluster" },
     Request.post "network/ip/service-policies"
       (create_body { name := "p1", ipspace := some "i1", scope := some "cluster" })]
    (by rfl)

/-- Claim C10: after validation succeeds the scope parameter is one of
cluster and svm, hence the create POST body always carries the scope key,
and a services parameter normalized from a pure no_service list appears in
the create body as an explicit empty list. -/
theorem claim10_scope_invariant (p q : Params) (h : init_params p = .ok q) :
    (q.scope = some "cluster" ∨ q.scope = some "svm") ∧
    (alookup (create_body q) "scope").isSome = true ∧
    (p.services = some ["no_service"] →
      alookup (create_body q) "services" = some (Value.list [])) := by
  refine ⟨init_params_ok_scope_values h, ?_, ?_⟩
  · have hl := (create_body_lookup q).2.2.2.1
    rcases init_params_ok_scope_values h with hs | hs <;> simp [hl, hs]
  · intro hsv
    have hl := (create_body_lookup q).2.2.2.2
    rw [hl, init_params_ok_no_service h hsv]
    rfl

/-- Witness for claim C10: validating a pure no_service input yields a
create body carrying services as an explicit empty list and a scope key. -/
theorem claim10_scope_invariant_witness :
    alookup
        (create_body
          { name := "p1", ipspace := some "i1", services := some [], scope := some "cluster" })
        "services" = some (Value.list []) :=
  (claim10_scope_invariant
      { name := "p1", ipspace := some "i1", services := some ["no_service"] }
      { name := "p1", ipspace := some "i1", services := some [], scope := some "cluster" }
      (by rfl)).2.2 rfl

end ServicePolicy
